import Mathlib

/-
Verification of the time-windowed, multi-channel image-extraction pipeline of
`src/rosbag_parser/main.py` against its natural-language specification.

The pure parts of the source (path/name computation, the type filter, the file
selection and sorting, the window validation) are embedded directly as Lean
functions.  The effectful parts (opening a bag container, decoding a payload,
writing a file) are modelled by an event trace: processing a batch yields the
list of observable events (container opened, decoder invoked, file written,
configuration error logged) together with an optional uncaught Python
exception; an exception aborts the rest of the run, exactly as an uncaught
exception does in the source, which contains no try/except around the
pipeline.  Strings are modelled as Lean strings; Python string operations
(slicing, replace, lower, splitext, basename) are embedded char-by-char on the
underlying character lists, which matches Python's code-point semantics.
-/

namespace RosbagPipeline

/-- ROS timestamp: whole seconds and nanosecond remainder, as in rospy.Time.
Comparison in rospy is by total nanoseconds. -/
structure RosTime where
  secs : Nat
  nsecs : Nat
deriving DecidableEq, Repr

def RosTime.toNanos (t : RosTime) : Nat := t.secs * 1000000000 + t.nsecs

/-- Modelled from the spec: a record payload is opaque encoded bytes that are
either well-formed for its declared encoding or malformed; the decoders
(external library functions) succeed exactly on well-formed payloads. -/
inductive Payload where
  | valid (data : Nat)
  | malformed (data : Nat)
deriving DecidableEq, Repr

def Payload.isValid : Payload → Bool
  | .valid _ => true
  | .malformed _ => false

/-- A decoded 2-D pixel buffer, kept abstract. -/
abbrev Frame := Nat

/-- One record of a log container: channel (topic), declared wire type,
timestamp, payload. -/
structure Record where
  channel : String
  wireType : String
  timestamp : RosTime
  payload : Payload
deriving DecidableEq, Repr

/-- A container file on disk is either a readable list of records or corrupt
(truncated/malformed), in which case opening it raises a read error. -/
inductive BagFile where
  | ok (records : List Record)
  | corrupt
deriving DecidableEq, Repr

/-- The local directory contents: file path paired with its container. -/
abbrev Filesystem := List (String × BagFile)

/-- Observable events of a pipeline run. `decodeCall` records an invocation of
a frame decoder for a record (file, topic, timestamp); `written` records a
successful image write with the full output path; `fileOpened` records a
successful container open; `configError` records the logged window-validation
error. -/
inductive Event where
  | configError
  | fileOpened (file : String)
  | decodeCall (file : String) (topic : String) (t : RosTime)
  | written (path : String)
deriving DecidableEq, Repr

/-- Uncaught Python exceptions of the pipeline: a container read/format error,
a payload decode error, and the NameError raised when the per-record dispatch
leaves the image variable unbound. -/
inductive PyErr where
  | readError (file : String)
  | decodeError
  | nameError
deriving DecidableEq, Repr

/-- Configuration constant DATA_TYPES of main.py (line 27). -/
def DATA_TYPES : List String := ["sensor_msgs/Image", "sensor_msgs/CompressedImage"]

/-- Configuration constant TOPICS of main.py (line 28). -/
def TOPICS : List String :=
  ["/realsense_gripper/aligned_depth_to_color/image_raw",
   "/realsense_gripper/color/image_raw/compressed"]

/-- Configuration constant BAG_FILE_EXTENSION of main.py (line 22). -/
def BAG_FILE_EXTENSION : String := ".bag"

/-- Configuration constant DESTINATION_LOCAL_PICTURES of main.py (line 25). -/
def DESTINATION_LOCAL_PICTURES : String := "/data1/s3/pictures"

/-- Python os.path.basename for the paths used here: the part after the last
path separator. -/
def basename (p : String) : String := ⟨(p.data.reverse.takeWhile (· ≠ '/')).reverse⟩

/-- Root part of Python os.path.splitext on a file name (no directory part):
everything before the last dot, where the leading run of dots of the name
never starts an extension. -/
def splitextRootList (cs : List Char) : List Char :=
  let lead := cs.takeWhile (· = '.')
  let rest := cs.drop lead.length
  if rest.contains '.' then
    let revRest := rest.reverse
    lead ++ ((revRest.drop (revRest.takeWhile (· ≠ '.')).length).drop 1).reverse
  else cs

/-- Extension part of Python os.path.splitext on a file name. -/
def splitextExtList (cs : List Char) : List Char := cs.drop (splitextRootList cs).length

/-- get_file_extension of main.py (lines 86-88): extension of the name,
lowercased. -/
def get_file_extension (file_name : String) : String :=
  ⟨(splitextExtList file_name.data).map Char.toLower⟩

/-- get_file_name of main.py (lines 91-93): name without extension,
lowercased. -/
def get_file_name (file_name : String) : String :=
  ⟨(splitextRootList file_name.data).map Char.toLower⟩

/-- Gregorian date (year, month, day) of a number of days since 1970-01-01,
as computed by datetime.utcfromtimestamp. -/
def civilFromDays (days : Nat) : Nat × Nat × Nat :=
  let z := days + 719468
  let era := z / 146097
  let doe := z % 146097
  let yoe := (doe - doe / 1460 + doe / 36524 - doe / 146096) / 365
  let y := yoe + era * 400
  let doy := doe - (365 * yoe + yoe / 4 - yoe / 100)
  let mp := (5 * doy + 2) / 153
  let d := doy - (153 * mp + 2) / 5 + 1
  let m := if mp < 10 then mp + 3 else mp - 9
  (if m ≤ 2 then y + 1 else y, m, d)

/-- Days since 1970-01-01 of a Gregorian date, as computed by
datetime.strptime followed by .timestamp() on a UTC datetime. -/
def daysFromCivil (y m d : Nat) : Nat :=
  let y2 := if m ≤ 2 then y - 1 else y
  let era := y2 / 400
  let yoe := y2 % 400
  let doy := (153 * (if m > 2 then m - 3 else m + 9) + 2) / 5 + d - 1
  let doe := yoe * 365 + yoe / 4 - yoe / 100 + doy
  era * 146097 + doe - 719468

/-- Two-digit zero-padded decimal. -/
def pad2 (n : Nat) : String := if n < 10 then "0" ++ toString n else toString n

/-- Four-digit zero-padded decimal (years of interest are all ≥ 1970). -/
def pad4 (n : Nat) : String :=
  if n < 10 then "000" ++ toString n
  else if n < 100 then "00" ++ toString n
  else if n < 1000 then "0" ++ toString n
  else toString n

/-- datetime.utcfromtimestamp(secs).strftime applied with the format used
throughout main.py: YYYY-MM-DD_HH-MM-SS in UTC. -/
def formatUTC (secs : Nat) : String :=
  let ymd := civilFromDays (secs / 86400)
  let sod := secs % 86400
  pad4 ymd.1 ++ "-" ++ pad2 ymd.2.1 ++ "-" ++ pad2 ymd.2.2 ++ "_" ++
    pad2 (sod / 3600) ++ "-" ++ pad2 (sod % 3600 / 60) ++ "-" ++ pad2 (sod % 60)

/-- A parsed YYYY-MM-DD HH:MM:SS calendar time, interpreted in UTC, as
produced by datetime.strptime in process_bag_files. -/
structure PyDateTime where
  y : Nat
  m : Nat
  d : Nat
  hh : Nat
  mi : Nat
  ss : Nat
deriving DecidableEq, Repr

/-- Epoch seconds of a UTC calendar time; models
datetime.replace(tzinfo=utc).timestamp() followed by rospy.Time.from_sec,
which yields a RosTime with zero nanoseconds for whole-second inputs. -/
def toEpoch (t : PyDateTime) : Nat :=
  daysFromCivil t.y t.m t.d * 86400 + t.hh * 3600 + t.mi * 60 + t.ss

/-- filter_image_msgs of main.py (lines 122-126): the record-level inclusion
predicate handed to the reader; admits a connection exactly when its declared
wire type is in DATA_TYPES. -/
def filter_image_msgs (topic datatype md5sum msg_def header : String) : Bool :=
  if datatype ∈ DATA_TYPES then true else false

/-- Modelled from the spec: rosbags.image.message_to_cvimage, the raw-image
decoder; fails with a decode error exactly on malformed payloads (spec 4.3). -/
def message_to_cvimage : Payload → Except String Frame
  | .valid d => .ok d
  | .malformed _ => .error "decode error"

/-- Modelled from the spec: rosbags.image.compressed_image_to_cvimage, the
compressed-image decoder; fails with a decode error exactly on malformed
payloads (spec 4.3). -/
def compressed_image_to_cvimage : Payload → Except String Frame
  | .valid d => .ok d
  | .malformed _ => .error "decode error"

/-- Modelled from the spec: rosbag.Bag.read_messages of the rosbag library
(spec 4.1): yields, in container order, exactly the records whose channel is
in the topic allow-list (absent list means all channels), whose connection
passes the supplied inclusion predicate, and whose timestamp lies in the
inclusive window [start, end]. -/
def read_messages (records : List Record) (topics : Option (List String))
    (start_ts end_ts : RosTime) : List Record :=
  records.filter (fun r =>
    (match topics with
     | none => true
     | some ts => decide (r.channel ∈ ts)) &&
    filter_image_msgs r.channel r.wireType "" "" "" &&
    (decide (start_ts.toNanos ≤ r.timestamp.toNanos) &&
     decide (r.timestamp.toNanos ≤ end_ts.toNanos)))

/-- Modelled from the spec: rosbag.Bag(file, r) of the rosbag library; opening
a corrupt/truncated container (or a missing file) raises a read/format error
(spec 4.1), modelled as none. -/
def openBag (fs : Filesystem) (file : String) : Option (List Record) :=
  match fs.find? (fun p => p.1 == file) with
  | some (_, .ok records) => some records
  | some (_, .corrupt) => none
  | none => none

/-- Chars of the class string str(type(msg)) for a message generated by the
rosbag library from wire type pkg/Name: the generated class is named
pkg__Name inside a temporary module, so the string reads like
<class (q)tmpXXX.pkg__Name(q)> with (q) an apostrophe, built here with
Char.ofNat 39 . -/
def classStrOf (wire : String) : List Char :=
  "<class ".data ++ [Char.ofNat 39] ++ "tmp.".data ++
    (wire.data.flatMap (fun c => if c = '/' then ['_', '_'] else [c])) ++
    [Char.ofNat 39, '>']

/-- Chars before the first double underscore is reached. -/
def upToUU : List Char → List Char
  | '_' :: '_' :: _ => []
  | c :: rest => c :: upToUU rest
  | [] => []

/-- Chars after the first double underscore, when one exists. -/
def afterFirstUU : List Char → Option (List Char)
  | '_' :: '_' :: rest => some rest
  | _ :: rest => afterFirstUU rest
  | [] => none

/-- Line 171 of main.py: datatype = (str(type(msg)).split(uu)[1])[:-2] with uu
a double underscore — the second split piece of the class string with its last
two chars dropped, which maps wire type pkg/Name to Name.  When the class
string holds no double underscore the source raises IndexError; that path is
unreachable for records admitted by the filter, since both configured wire
types contain a path separator, and is given the empty string here. -/
def derivedDatatype (wire : String) : String :=
  match afterFirstUU (classStrOf wire) with
  | some rest =>
      let piece := upToUU rest
      ⟨piece.take (piece.length - 2)⟩
  | none => ""

/-- The channel token of the output path, line 136 of main.py: topic[1:]
with every path separator of the remainder replaced by an underscore. -/
def channelToken (topic : String) : String :=
  ⟨(topic.data.drop 1).map (fun c => if c = '/' then '_' else c)⟩

/-- The output path computed by process_bag_message (lines 130-139 and 149 of
main.py) for one record: directory
DESTINATION_LOCAL_PICTURES/(channel token)/(datatype)/(window suffix)/ and
file (time string)((base name)).png . -/
def computeOutputPath (file_name topic datatype : String) (t : RosTime)
    (folder_name_suffix : String) : String :=
  let base_file_name := get_file_name (basename file_name)
  let time_str := formatUTC t.secs ++ "-" ++ toString t.nsecs
  let out_file_name := time_str ++ "(" ++ base_file_name ++ ")"
  let topic_str := channelToken topic
  let out_dir_name := DESTINATION_LOCAL_PICTURES ++ "/" ++ topic_str ++ "/" ++
    datatype ++ "/" ++ folder_name_suffix ++ "/"
  out_dir_name ++ out_file_name ++ ".png"

/-- process_bag_message of main.py (lines 129-155): dispatches on the derived
datatype string; on Image or CompressedImage it invokes the matching decoder
and, when decoding succeeds, writes the image at the computed output path; a
malformed payload raises the decoder error; any other datatype leaves the
image variable unbound so the write raises NameError and nothing is decoded
or written. -/
def process_bag_message (file_name topic : String) (message : Payload)
    (datatype : String) (time_stamp : RosTime) (folder_name_suffix : String) :
    List Event × Option PyErr :=
  if datatype = "Image" then
    match message_to_cvimage message with
    | .ok _ => ([.decodeCall file_name topic time_stamp,
                 .written (computeOutputPath file_name topic datatype time_stamp folder_name_suffix)],
                none)
    | .error _ => ([.decodeCall file_name topic time_stamp], some .decodeError)
  else if datatype = "CompressedImage" then
    match compressed_image_to_cvimage message with
    | .ok _ => ([.decodeCall file_name topic time_stamp,
                 .written (computeOutputPath file_name topic datatype time_stamp folder_name_suffix)],
                none)
    | .error _ => ([.decodeCall file_name topic time_stamp], some .decodeError)
  else ([], some .nameError)

/-- Lines 163-165 of main.py: the window folder suffix, formatted from the
window start and end timestamps (whole seconds, UTC). -/
def folder_name_suffix (start_ts end_ts : RosTime) : String :=
  formatUTC start_ts.secs ++ "_" ++ formatUTC end_ts.secs

/-- The message loop of process_bag_file (lines 169-172 of main.py): each
yielded record is processed in order; an uncaught exception from
process_bag_message aborts the loop (and the whole run) immediately. -/
def run_messages (file_name fsuffix : String) : List Record → List Event × Option PyErr
  | [] => ([], none)
  | r :: rs =>
    match process_bag_message file_name r.channel r.payload
      (derivedDatatype r.wireType) r.timestamp fsuffix with
    | (evs, some e) => (evs, some e)
    | (evs, none) =>
      let rest := run_messages file_name fsuffix rs
      (evs ++ rest.1, rest.2)

/-- process_bag_file of main.py (lines 158-174): computes the window folder
suffix, opens the container (a corrupt container raises a read error), and
runs the message loop over the records selected by the reader. -/
def process_bag_file (fs : Filesystem) (file_name : String)
    (topics : Option (List String)) (start_ts end_ts : RosTime) :
    List Event × Option PyErr :=
  let fsuffix := folder_name_suffix start_ts end_ts
  match openBag fs file_name with
  | none => ([], some (.readError file_name))
  | some records =>
    let res := run_messages file_name fsuffix (read_messages records topics start_ts end_ts)
    (.fileOpened file_name :: res.1, res.2)

/-- The file loop of process_bag_files (lines 210-211 of main.py): each file
is processed in order; an uncaught exception from process_bag_file aborts the
loop immediately. -/
def processFiles (fs : Filesystem) (topics : Option (List String))
    (start_ts end_ts : RosTime) : List String → List Event × Option PyErr
  | [] => ([], none)
  | f :: rest =>
    match process_bag_file fs f topics start_ts end_ts with
    | (evs, some e) => (evs, some e)
    | (evs, none) =>
      let res := processFiles fs topics start_ts end_ts rest
      (evs ++ res.1, res.2)

/-- Python code-point comparison of two strings (the order used by sorted). -/
def lexLe : List Char → List Char → Bool
  | [], _ => true
  | _ :: _, [] => false
  | c :: cs, d :: ds => if c = d then lexLe cs ds else decide (c < d)

def strLe (a b : String) : Bool := lexLe a.data b.data

/-- Python sorted on a list of strings: a sort by code-point order. -/
def sortStrings (l : List String) : List String :=
  List.insertionSort (fun a b => strLe a b = true) l

/-- Line 205 of main.py: keep the directory entries whose (lowercased)
extension is BAG_FILE_EXTENSION, turn each into path_to_files + entry, and
sort the resulting list lexically ascending. -/
def selectFiles (dirListing : List String) (path_to_files : String) : List String :=
  sortStrings ((dirListing.filter
    (fun fl => get_file_extension fl = BAG_FILE_EXTENSION)).map
      (fun fl => path_to_files ++ fl))

/-- Sentinel far-past date of process_bag_files (line 181 of main.py). -/
def epoch_start : PyDateTime := ⟨1980, 1, 1, 0, 0, 0⟩

/-- Sentinel far-future date of process_bag_files (line 182 of main.py). -/
def epoch_end : PyDateTime := ⟨2900, 12, 31, 0, 0, 0⟩

/-- process_bag_files of main.py (lines 177-211): resolves absent window
bounds to the sentinel dates, converts both bounds to timestamps, logs a
configuration error and returns at once when start is greater than end, and
otherwise processes the selected directory files in sorted order.  The
directory listing os.listdir(path_to_files) is passed in as dirListing. -/
def process_bag_files (fs : Filesystem) (dirListing : List String)
    (path_to_files : String) (topics : Option (List String))
    (start_time end_time : Option PyDateTime) : List Event × Option PyErr :=
  let start_time_t := start_time.getD epoch_start
  let end_time_t := end_time.getD epoch_end
  let start_timestamp : RosTime := ⟨toEpoch start_time_t, 0⟩
  let end_timestamp : RosTime := ⟨toEpoch end_time_t, 0⟩
  if end_timestamp.toNanos < start_timestamp.toNanos then
    ([.configError], none)
  else
    processFiles fs topics start_timestamp end_timestamp
      (selectFiles dirListing path_to_files)

/-- The file name carried by a container-opened event, when the event is one. -/
def openedName : Event → Option String
  | .fileOpened f => some f
  | _ => none

/-- The container files opened during a run, in order. -/
def openedNames (evs : List Event) : List String := evs.filterMap openedName

/-- Written from the spec (4.4 step 4): the channel token of the claims — the
channel with its leading path separator stripped and the remaining path
separators replaced by underscores. -/
def specChannelToken (channel : String) : String :=
  match channel.data with
  | '/' :: rest => ⟨rest.map (fun c => if c = '/' then '_' else c)⟩
  | cs => ⟨cs.map (fun c => if c = '/' then '_' else c)⟩

/-- Written from the spec (4.4 step 2): the time token of the claims — the
whole-second part formatted YYYY-MM-DD_HH-MM-SS in UTC, a dash, and the
sub-second remainder as a plain unpadded integer. -/
def specTimeToken (t : RosTime) : String :=
  formatUTC t.secs ++ "-" ++ toString t.nsecs

/-- Written from the spec (4.4 step 1): the base file name of the claims —
the source file name without directory and extension, lowercased. -/
def specBaseFileName (file_name : String) : String :=
  get_file_name (basename file_name)

/-- Written from the spec (4.4 step 5): the window suffix of the claims —
window start and end, each formatted YYYY-MM-DD_HH-MM-SS in UTC. -/
def specWindowSuffix (start_ts end_ts : RosTime) : String :=
  formatUTC start_ts.secs ++ "_" ++ formatUTC end_ts.secs

/-- Written from the spec (6, artifact tree layout): the full output path of
the claims, assembled from the spec-side tokens. -/
def specOutputPath (file_name channel datatype : String) (t : RosTime)
    (start_ts end_ts : RosTime) : String :=
  DESTINATION_LOCAL_PICTURES ++ "/" ++ specChannelToken channel ++ "/" ++
    datatype ++ "/" ++ specWindowSuffix start_ts end_ts ++ "/" ++
    specTimeToken t ++ "(" ++ specBaseFileName file_name ++ ")" ++ ".png"

/-- Concrete three-file batch whose sorted-middle container is corrupt, with
one in-window admissible record in each readable container. -/
def fsThreeFiles : Filesystem :=
  [("a.bag", .ok [⟨"/c", "sensor_msgs/Image", ⟨30, 0⟩, .valid 1⟩]),
   ("b.bag", .corrupt),
   ("c.bag", .ok [⟨"/c", "sensor_msgs/Image", ⟨40, 0⟩, .valid 2⟩])]

/-- The batch run over fsThreeFiles with the window 1970-01-01 00:00:00 to
1970-01-01 00:02:00. -/
def runThreeFiles : List Event × Option PyErr :=
  process_bag_files fsThreeFiles ["b.bag", "a.bag", "c.bag"] "" (some ["/c"])
    (some ⟨1970, 1, 1, 0, 0, 0⟩) (some ⟨1970, 1, 1, 0, 2, 0⟩)

/-- Concrete single container holding an admitted record with a malformed
payload between two admitted well-formed records. -/
def bagWithBadRecord : Filesystem :=
  [("r.bag", .ok
    [⟨"/c", "sensor_msgs/Image", ⟨10, 0⟩, .valid 1⟩,
     ⟨"/c", "sensor_msgs/Image", ⟨11, 0⟩, .malformed 2⟩,
     ⟨"/c", "sensor_msgs/Image", ⟨12, 0⟩, .valid 3⟩])]

/-- The run of process_bag_file over bagWithBadRecord with window [0, 100]
seconds. -/
def runBadRecord : List Event × Option PyErr :=
  process_bag_file bagWithBadRecord "r.bag" (some ["/c"]) ⟨0, 0⟩ ⟨100, 0⟩

/-! Helper lemmas. -/

theorem lexLe_total : ∀ a b, lexLe a b = true ∨ lexLe b a = true := by
  intro a
  induction a with
  | nil => intro b; left; rfl
  | cons c cs ih =>
    intro b
    cases b with
    | nil => right; rfl
    | cons d ds =>
      by_cases h : c = d
      · subst h
        rcases ih ds with h2 | h2
        · left; simp [lexLe, h2]
        · right; simp [lexLe, h2]
      · rcases lt_trichotomy c d with h2 | h2 | h2
        · left; simp [lexLe, h, h2]
        · exact absurd h2 h
        · right
          have hne : d ≠ c := fun he => h he.symm
          simp [lexLe, hne, h2]

theorem lexLe_trans : ∀ a b c, lexLe a b = true → lexLe b c = true → lexLe a c = true := by
  intro a
  induction a with
  | nil => intro b c _ _; rfl
  | cons x xs ih =>
    intro b c hab hbc
    cases b with
    | nil => simp [lexLe] at hab
    | cons y ys =>
      cases c with
      | nil => simp [lexLe] at hbc
      | cons z zs =>
        by_cases hxy : x = y <;> by_cases hyz : y = z
        · subst hxy; subst hyz
          simp only [lexLe, if_pos rfl] at *
          exact ih ys zs hab hbc
        · subst hxy
          simp only [lexLe, if_pos rfl, if_neg hyz] at *
          exact hbc
        · subst hyz
          simp only [lexLe, if_neg hxy] at *
          exact hab
        · simp only [lexLe, if_neg hxy, if_neg hyz, decide_eq_true_eq] at hab hbc
          have hxz : x < z := lt_trans hab hbc
          have hne : x ≠ z := ne_of_lt hxz
          simp [lexLe, if_neg hne, hxz]

theorem sortStrings_sorted (l : List String) :
    List.Sorted (fun a b => strLe a b = true) (sortStrings l) := by
  haveI : IsTotal String (fun a b => strLe a b = true) :=
    ⟨fun a b => lexLe_total a.data b.data⟩
  haveI : IsTrans String (fun a b => strLe a b = true) :=
    ⟨fun a b c => lexLe_trans a.data b.data c.data⟩
  exact List.sorted_insertionSort _ l

theorem sortStrings_mem (l : List String) (s : String) :
    s ∈ sortStrings l ↔ s ∈ l :=
  (List.perm_insertionSort _ l).mem_iff

theorem process_bag_message_unbound (file_name topic : String) (message : Payload)
    (datatype : String) (t : RosTime) (sfx : String)
    (h1 : datatype ≠ "Image") (h2 : datatype ≠ "CompressedImage") :
    process_bag_message file_name topic message datatype t sfx = ([], some .nameError) := by
  simp [process_bag_message, h1, h2]

theorem process_bag_message_ok (file_name topic : String) (message : Payload)
    (datatype : String) (t : RosTime) (sfx : String)
    (hdt : datatype = "Image" ∨ datatype = "CompressedImage")
    (hp : message.isValid = true) :
    process_bag_message file_name topic message datatype t sfx =
      ([.decodeCall file_name topic t,
        .written (computeOutputPath file_name topic datatype t sfx)], none) := by
  cases message with
  | valid d =>
    rcases hdt with h | h <;> subst h <;>
      simp [process_bag_message, message_to_cvimage, compressed_image_to_cvimage]
  | malformed d => simp [Payload.isValid] at hp

theorem process_bag_message_decodeErr (file_name topic : String) (message : Payload)
    (datatype : String) (t : RosTime) (sfx : String)
    (hdt : datatype = "Image" ∨ datatype = "CompressedImage")
    (hp : message.isValid = false) :
    process_bag_message file_name topic message datatype t sfx =
      ([.decodeCall file_name topic t], some .decodeError) := by
  cases message with
  | valid d => simp [Payload.isValid] at hp
  | malformed d =>
    rcases hdt with h | h <;> subst h <;>
      simp [process_bag_message, message_to_cvimage, compressed_image_to_cvimage]

theorem process_bag_message_events (file_name topic : String) (message : Payload)
    (datatype : String) (t : RosTime) (sfx : String) (ev : Event)
    (hmem : ev ∈ (process_bag_message file_name topic message datatype t sfx).1) :
    ev = .decodeCall file_name topic t ∨
      ev = .written (computeOutputPath file_name topic datatype t sfx) := by
  by_cases h1 : datatype = "Image"
  · subst h1
    cases message <;>
      simp [process_bag_message, message_to_cvimage] at hmem <;> tauto
  · by_cases h2 : datatype = "CompressedImage"
    · subst h2
      cases message <;>
        simp [process_bag_message, compressed_image_to_cvimage] at hmem <;> tauto
    · rw [process_bag_message_unbound file_name topic message datatype t sfx h1 h2] at hmem
      simp at hmem

theorem derivedDatatype_of_mem (wire : String) (h : wire ∈ DATA_TYPES) :
    derivedDatatype wire = "Image" ∨ derivedDatatype wire = "CompressedImage" := by
  simp only [DATA_TYPES, List.mem_cons, List.not_mem_nil, or_false] at h
  rcases h with h | h
  · subst h; left; decide
  · subst h; right; decide

theorem read_messages_subset (records : List Record) (topics : Option (List String))
    (start_ts end_ts : RosTime) (r : Record)
    (h : r ∈ read_messages records topics start_ts end_ts) :
    r ∈ records ∧ r.wireType ∈ DATA_TYPES ∧
      start_ts.toNanos ≤ r.timestamp.toNanos ∧ r.timestamp.toNanos ≤ end_ts.toNanos := by
  rw [read_messages, List.mem_filter] at h
  obtain ⟨hmem, hp⟩ := h
  simp only [Bool.and_eq_true, decide_eq_true_eq] at hp
  obtain ⟨⟨_, hfilt⟩, hs, he⟩ := hp
  refine ⟨hmem, ?_, hs, he⟩
  by_cases hd : r.wireType ∈ DATA_TYPES
  · exact hd
  · simp [filter_image_msgs, hd] at hfilt

theorem read_messages_mem (records : List Record) (ts : List String)
    (start_ts end_ts : RosTime) (r : Record)
    (hmem : r ∈ records) (htop : r.channel ∈ ts) (hwire : r.wireType ∈ DATA_TYPES)
    (hs : start_ts.toNanos ≤ r.timestamp.toNanos)
    (he : r.timestamp.toNanos ≤ end_ts.toNanos) :
    r ∈ read_messages records (some ts) start_ts end_ts := by
  rw [read_messages, List.mem_filter]
  refine ⟨hmem, ?_⟩
  simp [filter_image_msgs, htop, hwire, hs, he]

theorem run_messages_ok (file_name sfx : String) (msgs : List Record)
    (h : ∀ r ∈ msgs,
      (derivedDatatype r.wireType = "Image" ∨ derivedDatatype r.wireType = "CompressedImage") ∧
        r.payload.isValid = true) :
    run_messages file_name sfx msgs =
      ((msgs.map (fun r =>
        [Event.decodeCall file_name r.channel r.timestamp,
         Event.written (computeOutputPath file_name r.channel (derivedDatatype r.wireType)
           r.timestamp sfx)])).flatten, none) := by
  induction msgs with
  | nil => rfl
  | cons r rs ih =>
    have hr := h r (List.mem_cons_self r rs)
    have hrest := fun q hq => h q (List.mem_cons_of_mem r hq)
    rw [run_messages,
      process_bag_message_ok file_name r.channel r.payload (derivedDatatype r.wireType)
        r.timestamp sfx hr.1 hr.2]
    simp [ih hrest]

theorem run_messages_events (file_name sfx : String) (msgs : List Record) (ev : Event)
    (hmem : ev ∈ (run_messages file_name sfx msgs).1) :
    ∃ r ∈ msgs,
      ev = .decodeCall file_name r.channel r.timestamp ∨
        ev = .written (computeOutputPath file_name r.channel (derivedDatatype r.wireType)
          r.timestamp sfx) := by
  induction msgs with
  | nil => simp [run_messages] at hmem
  | cons r rs ih =>
    rw [run_messages] at hmem
    rcases hstep : process_bag_message file_name r.channel r.payload
        (derivedDatatype r.wireType) r.timestamp sfx with ⟨evs, err⟩
    have hevs : ∀ e2 ∈ evs,
        e2 = Event.decodeCall file_name r.channel r.timestamp ∨
          e2 = Event.written (computeOutputPath file_name r.channel
            (derivedDatatype r.wireType) r.timestamp sfx) := by
      intro e2 he2
      exact process_bag_message_events file_name r.channel r.payload
        (derivedDatatype r.wireType) r.timestamp sfx e2 (by rw [hstep]; exact he2)
    rw [hstep] at hmem
    cases err with
    | some e =>
      simp only at hmem
      exact ⟨r, List.mem_cons_self r rs, hevs ev hmem⟩
    | none =>
      simp only [List.mem_append] at hmem
      rcases hmem with hmem | hmem
      · exact ⟨r, List.mem_cons_self r rs, hevs ev hmem⟩
      · obtain ⟨q, hq, hor⟩ := ih hmem
        exact ⟨q, List.mem_cons_of_mem r hq, hor⟩

theorem process_bag_file_decodeCall (fs : Filesystem) (file_name : String)
    (topics : Option (List String)) (start_ts end_ts : RosTime)
    (f2 top : String) (t : RosTime)
    (hmem : Event.decodeCall f2 top t ∈ (process_bag_file fs file_name topics start_ts end_ts).1) :
    f2 = file_name ∧ ∃ records r, openBag fs file_name = some records ∧ r ∈ records ∧
      r.wireType ∈ DATA_TYPES ∧ r.channel = top ∧ r.timestamp = t ∧
      start_ts.toNanos ≤ t.toNanos ∧ t.toNanos ≤ end_ts.toNanos := by
  rw [process_bag_file] at hmem
  rcases hopen : openBag fs file_name with _ | records
  · rw [hopen] at hmem; simp at hmem
  · rw [hopen] at hmem
    simp only [List.mem_cons] at hmem
    rcases hmem with hmem | hmem
    · exact absurd hmem (by simp)
    · obtain ⟨r, hr, hor⟩ := run_messages_events file_name _ _ _ hmem
      rcases hor with hor | hor
      · obtain ⟨hf, htop, ht⟩ : f2 = file_name ∧ top = r.channel ∧ t = r.timestamp := by
          injection hor with a b c
          exact ⟨a, b, c⟩
        obtain ⟨hrec, hwire, hs, he⟩ :=
          read_messages_subset records topics start_ts end_ts r hr
        subst htop; subst ht
        exact ⟨hf, records, r, rfl, hrec, hwire, rfl, rfl, hs, he⟩
      · exact absurd hor (by simp)

theorem process_bag_file_corrupt (fs : Filesystem) (file_name : String)
    (topics : Option (List String)) (start_ts end_ts : RosTime)
    (hopen : openBag fs file_name = none) :
    process_bag_file fs file_name topics start_ts end_ts =
      ([], some (.readError file_name)) := by
  rw [process_bag_file, hopen]

theorem processFiles_abort (fs : Filesystem) (topics : Option (List String))
    (start_ts end_ts : RosTime) (pre : List String) (bad : String) (post : List String)
    (hpre : ∀ g ∈ pre, (process_bag_file fs g topics start_ts end_ts).2 = none)
    (hbad : openBag fs bad = none) :
    processFiles fs topics start_ts end_ts (pre ++ bad :: post) =
      ((pre.map (fun g => (process_bag_file fs g topics start_ts end_ts).1)).flatten,
        some (.readError bad)) := by
  induction pre with
  | nil =>
    simp only [List.nil_append, List.map_nil, List.flatten_nil]
    rw [processFiles, process_bag_file_corrupt fs bad topics start_ts end_ts hbad]
  | cons g gs ih =>
    have hg := hpre g (List.mem_cons_self g gs)
    have hgs := fun q hq => hpre q (List.mem_cons_of_mem g hq)
    rcases hstep : process_bag_file fs g topics start_ts end_ts with ⟨evs, err⟩
    rw [hstep] at hg
    simp only at hg
    subst hg
    simp only [List.cons_append]
    rw [processFiles, hstep]
    simp [ih hgs, hstep]

theorem openedNames_run_messages (file_name sfx : String) (msgs : List Record) :
    openedNames (run_messages file_name sfx msgs).1 = [] := by
  rw [openedNames, List.filterMap_eq_nil_iff]
  intro ev hev
  obtain ⟨r, _, hor⟩ := run_messages_events file_name sfx msgs ev hev
  rcases hor with hor | hor <;> subst hor <;> rfl

theorem openedNames_process_bag_file (fs : Filesystem) (file_name : String)
    (topics : Option (List String)) (start_ts end_ts : RosTime)
    (h : (process_bag_file fs file_name topics start_ts end_ts).2 = none) :
    openedNames (process_bag_file fs file_name topics start_ts end_ts).1 = [file_name] := by
  rcases hopen : openBag fs file_name with _ | records
  · rw [process_bag_file, hopen] at h; simp at h
  · rw [process_bag_file, hopen]
    simp only [openedNames, List.filterMap_cons]
    have := openedNames_run_messages file_name (folder_name_suffix start_ts end_ts)
      (read_messages records topics start_ts end_ts)
    rw [openedNames] at this
    simp [openedName, this]

theorem openedNames_processFiles (fs : Filesystem) (topics : Option (List String))
    (start_ts end_ts : RosTime) (files : List String)
    (h : ∀ f ∈ files, (process_bag_file fs f topics start_ts end_ts).2 = none) :
    openedNames (processFiles fs topics start_ts end_ts files).1 = files := by
  induction files with
  | nil => rfl
  | cons f rest ih =>
    have hf := h f (List.mem_cons_self f rest)
    have hrest := fun q hq => h q (List.mem_cons_of_mem f hq)
    rcases hstep : process_bag_file fs f topics start_ts end_ts with ⟨evs, err⟩
    rw [hstep] at hf
    simp only at hf
    subst hf
    rw [processFiles, hstep]
    simp only [openedNames, List.filterMap_append]
    have h1 : List.filterMap openedName evs = [f] := by
      have := openedNames_process_bag_file fs f topics start_ts end_ts (by rw [hstep])
      rw [hstep, openedNames] at this
      exact this
    have h2 := ih hrest
    rw [openedNames] at h2
    rw [h1, h2]
    rfl

theorem toNanos_lt_iff (a b : Nat) :
    (⟨a, 0⟩ : RosTime).toNanos < (⟨b, 0⟩ : RosTime).toNanos ↔ a < b := by
  simp only [RosTime.toNanos]
  omega

theorem computeOutputPath_eq_spec (file_name topic datatype : String)
    (t start_ts end_ts : RosTime) (hc : topic.data.head? = some '/') :
    computeOutputPath file_name topic datatype t (folder_name_suffix start_ts end_ts) =
      specOutputPath file_name topic datatype t start_ts end_ts := by
  have htok : channelToken topic = specChannelToken topic := by
    rcases topic with ⟨cs⟩
    cases cs with
    | nil => simp at hc
    | cons c rest =>
      simp only [List.head?] at hc
      have hcr : c = '/' := by injection hc
      subst hcr
      rfl
  rw [computeOutputPath, specOutputPath, folder_name_suffix, specWindowSuffix,
    specTimeToken, specBaseFileName, htok]
  simp [String.append_assoc]

/-! Claim theorems. -/

/-- C1: for every admitted record — declared wire type in the allow-list,
channel beginning with the path separator, well-formed payload — the write of
process_bag_message lands exactly at
outputRoot/channelToken/declaredType/windowSuffix/timeToken(baseFileName).png,
where the tokens are the ones the claim defines (specOutputPath, built from
specChannelToken, specTimeToken, specBaseFileName) and the window suffix comes
from the window bounds, not the record timestamp. -/
theorem C1_output_path_layout (file_name topic : String) (message : Payload)
    (wire : String) (t start_ts end_ts : RosTime)
    (hw : wire ∈ DATA_TYPES) (hc : topic.data.head? = some '/')
    (hp : message.isValid = true) :
    process_bag_message file_name topic message (derivedDatatype wire) t
        (folder_name_suffix start_ts end_ts) =
      ([.decodeCall file_name topic t,
        .written (specOutputPath file_name topic (derivedDatatype wire) t start_ts end_ts)],
       none) := by
  rw [process_bag_message_ok file_name topic message (derivedDatatype wire) t
      (folder_name_suffix start_ts end_ts) (derivedDatatype_of_mem wire hw) hp,
    computeOutputPath_eq_spec file_name topic (derivedDatatype wire) t start_ts end_ts hc]

/-- C1 witness: the layout theorem applied to a concrete admitted record, with
the resulting path evaluated to its literal string. -/
theorem C1_output_path_layout_witness :
    process_bag_message "/data1/s3/bg/Run1.BAG" "/cam/image_raw" (.valid 7)
        (derivedDatatype "sensor_msgs/Image") ⟨100, 5⟩
        (folder_name_suffix ⟨50, 0⟩ ⟨150, 0⟩) =
      ([.decodeCall "/data1/s3/bg/Run1.BAG" "/cam/image_raw" ⟨100, 5⟩,
        .written (specOutputPath "/data1/s3/bg/Run1.BAG" "/cam/image_raw"
          (derivedDatatype "sensor_msgs/Image") ⟨100, 5⟩ ⟨50, 0⟩ ⟨150, 0⟩)], none) ∧
    specOutputPath "/data1/s3/bg/Run1.BAG" "/cam/image_raw"
        (derivedDatatype "sensor_msgs/Image") ⟨100, 5⟩ ⟨50, 0⟩ ⟨150, 0⟩ =
      "/data1/s3/pictures/cam_image_raw/Image/1970-01-01_00-00-50_1970-01-01_00-02-30/1970-01-01_00-01-40-5(run1).png" :=
  ⟨C1_output_path_layout "/data1/s3/bg/Run1.BAG" "/cam/image_raw" (.valid 7)
      "sensor_msgs/Image" ⟨100, 5⟩ ⟨50, 0⟩ ⟨150, 0⟩ (by decide) (by decide) (by decide),
   by decide⟩

/-- C3: when the window start is after the window end, process_bag_files logs
a configuration error and returns at once — the trace holds the configuration
error alone, so no container is opened and no record is decoded or written. -/
theorem C3_window_validation (fs : Filesystem) (dirListing : List String)
    (path_to_files : String) (topics : Option (List String)) (st et : PyDateTime)
    (h : toEpoch et < toEpoch st) :
    process_bag_files fs dirListing path_to_files topics (some st) (some et) =
      ([.configError], none) := by
  have h2 := (toNanos_lt_iff (toEpoch et) (toEpoch st)).mpr h
  simp [process_bag_files, h2]

/-- C3 witness: a reversed window over a non-empty directory yields only the
configuration error. -/
theorem C3_window_validation_witness :
    process_bag_files fsThreeFiles ["b.bag", "a.bag", "c.bag"] "" (some ["/c"])
        (some ⟨1970, 1, 1, 0, 0, 10⟩) (some ⟨1970, 1, 1, 0, 0, 5⟩) =
      ([.configError], none) :=
  C3_window_validation fsThreeFiles ["b.bag", "a.bag", "c.bag"] "" (some ["/c"])
    ⟨1970, 1, 1, 0, 0, 10⟩ ⟨1970, 1, 1, 0, 0, 5⟩ (by decide)

/-- C7: the output path depends on nothing but the
(sourceFile, channel, declaredType, timestamp, windowSuffix) tuple — two
evaluations on equal tuples give the identical path.  The embedding is a pure
function of these arguments, so re-running the pipeline on identical inputs
recomputes identical paths (overwrite, never duplicate). -/
theorem C7_naming_deterministic (f1 c1 d1 : String) (t1 : RosTime) (w1 : String)
    (f2 c2 d2 : String) (t2 : RosTime) (w2 : String)
    (hf : f1 = f2) (hc : c1 = c2) (hd : d1 = d2) (ht : t1 = t2) (hw : w1 = w2) :
    computeOutputPath f1 c1 d1 t1 w1 = computeOutputPath f2 c2 d2 t2 w2 := by
  subst hf; subst hc; subst hd; subst ht; subst hw; rfl

/-- C7 witness: two evaluations on the same concrete tuple agree. -/
theorem C7_naming_deterministic_witness :
    computeOutputPath "run1.bag" "/cam/image_raw" "Image" ⟨100, 5⟩ "w" =
      computeOutputPath "run1.bag" "/cam/image_raw" "Image" ⟨100, 5⟩ "w" :=
  C7_naming_deterministic "run1.bag" "/cam/image_raw" "Image" ⟨100, 5⟩ "w"
    "run1.bag" "/cam/image_raw" "Image" ⟨100, 5⟩ "w" rfl rfl rfl rfl rfl

/-- C9: the per-record dispatch binds the image only for the short names Image
and CompressedImage: any other derived name reaches the write with the
variable unbound and raises NameError with nothing decoded or written; and
under the filter precondition — wire type in DATA_TYPES — the derived name is
always one of the two, so the NameError branch is unreachable. -/
theorem C9_dispatch_totality :
    (∀ (file_name topic : String) (message : Payload) (t : RosTime) (sfx datatype : String),
      datatype ≠ "Image" → datatype ≠ "CompressedImage" →
      process_bag_message file_name topic message datatype t sfx = ([], some .nameError)) ∧
    (∀ wire ∈ DATA_TYPES,
      derivedDatatype wire = "Image" ∨ derivedDatatype wire = "CompressedImage") ∧
    (∀ (file_name topic : String) (message : Payload) (t : RosTime) (sfx wire : String),
      wire ∈ DATA_TYPES →
      (process_bag_message file_name topic message (derivedDatatype wire) t sfx).2 ≠
        some .nameError) := by
  refine ⟨?_, derivedDatatype_of_mem, ?_⟩
  · intro f c m t sfx dt h1 h2
    exact process_bag_message_unbound f c m dt t sfx h1 h2
  · intro f c m t sfx wire hw
    cases hm : m.isValid
    · rw [process_bag_message_decodeErr f c m (derivedDatatype wire) t sfx
        (derivedDatatype_of_mem wire hw) hm]
      simp
    · rw [process_bag_message_ok f c m (derivedDatatype wire) t sfx
        (derivedDatatype_of_mem wire hw) hm]
      simp

/-- C9 witness: an unknown derived name raises NameError with an empty trace;
both configured wire types derive a dispatchable name and never reach the
NameError branch. -/
theorem C9_dispatch_totality_witness :
    process_bag_message "r.bag" "/c" (.valid 1) "UnknownType" ⟨5, 0⟩ "w" =
      ([], some .nameError) ∧
    (derivedDatatype "sensor_msgs/Image" = "Image" ∨
      derivedDatatype "sensor_msgs/Image" = "CompressedImage") ∧
    (process_bag_message "r.bag" "/c" (.valid 1)
      (derivedDatatype "sensor_msgs/CompressedImage") ⟨5, 0⟩ "w").2 ≠ some .nameError :=
  ⟨C9_dispatch_totality.1 "r.bag" "/c" (.valid 1) ⟨5, 0⟩ "w" "UnknownType"
      (by decide) (by decide),
   C9_dispatch_totality.2.1 "sensor_msgs/Image" (by decide),
   C9_dispatch_totality.2.2 "r.bag" "/c" (.valid 1) ⟨5, 0⟩ "w"
     "sensor_msgs/CompressedImage" (by decide)⟩

/-- C10: the channel token drops the first character of the channel
unconditionally and replaces the remaining path separators by underscores:
for channels beginning with the separator this agrees with the specified
stripping, and for a channel not beginning with a separator the first
character of its name is silently lost, as the concrete divergence shows. -/
theorem C10_channel_token_behaviour :
    (∀ channel : String, channelToken channel =
      ⟨(channel.data.drop 1).map (fun c => if c = '/' then '_' else c)⟩) ∧
    (∀ channel : String, channel.data.head? = some '/' →
      channelToken channel = specChannelToken channel) ∧
    channelToken "abc/d" = "bc_d" ∧ specChannelToken "abc/d" = "abc_d" ∧
    channelToken "abc/d" ≠ specChannelToken "abc/d" := by
  refine ⟨fun channel => rfl, ?_, by decide, by decide, by decide⟩
  intro channel hc
  rcases channel with ⟨cs⟩
  cases cs with
  | nil => simp at hc
  | cons c rest =>
    simp only [List.head?] at hc
    have hcr : c = '/' := by injection hc
    subst hcr
    rfl

/-- C10 witness: the token theorem applied to a concrete channel with a
leading separator, with the token evaluated. -/
theorem C10_channel_token_behaviour_witness :
    channelToken "/cam/one" = specChannelToken "/cam/one" ∧
    channelToken "/cam/one" = "cam_one" :=
  ⟨C10_channel_token_behaviour.2.1 "/cam/one" (by decide), by decide⟩

/-- C4: the inclusion predicate admits exactly the records whose declared wire
type is in DATA_TYPES; a record outside the set never enters the selected
sequence (so it is silently excluded with no error), and every decoder
invocation of a file run stems from a record whose wire type is in the set —
no decode (hence no write) ever happens for an excluded record. -/
theorem C4_type_filter :
    (∀ topic datatype md5sum msg_def header,
      filter_image_msgs topic datatype md5sum msg_def header = true ↔
        datatype ∈ DATA_TYPES) ∧
    (∀ (records : List Record) (topics : Option (List String))
        (start_ts end_ts : RosTime) (r : Record), r ∈ records →
      r.wireType ∉ DATA_TYPES → r ∉ read_messages records topics start_ts end_ts) ∧
    (∀ (fs : Filesystem) (file_name : String) (topics : Option (List String))
        (start_ts end_ts : RosTime) (f2 top : String) (t : RosTime),
      Event.decodeCall f2 top t ∈
          (process_bag_file fs file_name topics start_ts end_ts).1 →
      ∃ records r, openBag fs file_name = some records ∧ r ∈ records ∧
        r.wireType ∈ DATA_TYPES ∧ r.channel = top ∧ r.timestamp = t) := by
  refine ⟨?_, ?_, ?_⟩
  · intro topic dt md5 mdef hdr
    by_cases hd : dt ∈ DATA_TYPES <;> simp [filter_image_msgs, hd]
  · intro records topics s e r hmem hnot hin
    exact hnot (read_messages_subset records topics s e r hin).2.1
  · intro fs f topics s e f2 top t hmem
    obtain ⟨hf, records, r, hopen, hrec, hwire, htop, ht, _, _⟩ :=
      process_bag_file_decodeCall fs f topics s e f2 top t hmem
    exact ⟨records, r, hopen, hrec, hwire, htop, ht⟩

/-- C4 witness: the predicate admits a configured type, and a concrete record
with an unknown wire type is excluded from the selected sequence of its own
container. -/
theorem C4_type_filter_witness :
    (filter_image_msgs "/c" "sensor_msgs/Image" "" "" "" = true ↔
      "sensor_msgs/Image" ∈ DATA_TYPES) ∧
    (⟨"/c", "foo/Bar", ⟨5, 0⟩, .valid 1⟩ : Record) ∉
      read_messages [⟨"/c", "foo/Bar", ⟨5, 0⟩, .valid 1⟩] (some ["/c"]) ⟨0, 0⟩ ⟨10, 0⟩ :=
  ⟨C4_type_filter.1 "/c" "sensor_msgs/Image" "" "" "",
   C4_type_filter.2.1 [⟨"/c", "foo/Bar", ⟨5, 0⟩, .valid 1⟩] (some ["/c"]) ⟨0, 0⟩ ⟨10, 0⟩
     ⟨"/c", "foo/Bar", ⟨5, 0⟩, .valid 1⟩ (by decide) (by decide)⟩

/-- C5: a record with a timestamp outside the inclusive window never enters
the selected sequence, every decoder invocation of a file run carries an
in-window timestamp (so out-of-window records in a container holding
in-window ones are neither decoded nor written), and an in-window record on
an allowed channel and type in a container of well-formed payloads is
written. -/
theorem C5_time_window :
    (∀ (records : List Record) (topics : Option (List String))
        (start_ts end_ts : RosTime) (r : Record), r ∈ records →
      (r.timestamp.toNanos < start_ts.toNanos ∨ end_ts.toNanos < r.timestamp.toNanos) →
      r ∉ read_messages records topics start_ts end_ts) ∧
    (∀ (fs : Filesystem) (file_name : String) (topics : Option (List String))
        (start_ts end_ts : RosTime) (f2 top : String) (t : RosTime),
      Event.decodeCall f2 top t ∈
          (process_bag_file fs file_name topics start_ts end_ts).1 →
      start_ts.toNanos ≤ t.toNanos ∧ t.toNanos ≤ end_ts.toNanos) ∧
    (∀ (fs : Filesystem) (file_name : String) (ts : List String)
        (start_ts end_ts : RosTime) (records : List Record) (r : Record),
      openBag fs file_name = some records →
      (∀ q ∈ records, q.payload.isValid = true) →
      r ∈ records → r.channel ∈ ts → r.wireType ∈ DATA_TYPES →
      start_ts.toNanos ≤ r.timestamp.toNanos →
      r.timestamp.toNanos ≤ end_ts.toNanos →
      Event.written (computeOutputPath file_name r.channel (derivedDatatype r.wireType)
          r.timestamp (folder_name_suffix start_ts end_ts)) ∈
        (process_bag_file fs file_name (some ts) start_ts end_ts).1) := by
  refine ⟨?_, ?_, ?_⟩
  · intro records topics s e r hmem hout hin
    obtain ⟨_, _, hs, he⟩ := read_messages_subset records topics s e r hin
    rcases hout with hout | hout
    · exact absurd hs (Nat.not_le.mpr hout)
    · exact absurd he (Nat.not_le.mpr hout)
  · intro fs f topics s e f2 top t hmem
    obtain ⟨_, _, r, _, _, _, _, _, hs, he⟩ :=
      process_bag_file_decodeCall fs f topics s e f2 top t hmem
    exact ⟨hs, he⟩
  · intro fs f ts s e records r hopen hvalid hmem htop hwire hs he
    have hfilters : r ∈ read_messages records (some ts) s e :=
      read_messages_mem records ts s e r hmem htop hwire hs he
    have hall : ∀ q ∈ read_messages records (some ts) s e,
        (derivedDatatype q.wireType = "Image" ∨
          derivedDatatype q.wireType = "CompressedImage") ∧
          q.payload.isValid = true := by
      intro q hq
      obtain ⟨hqrec, hqwire, _, _⟩ := read_messages_subset records (some ts) s e q hq
      exact ⟨derivedDatatype_of_mem q.wireType hqwire, hvalid q hqrec⟩
    have hrun := run_messages_ok f (folder_name_suffix s e)
      (read_messages records (some ts) s e) hall
    have hgoal : Event.written (computeOutputPath f r.channel
        (derivedDatatype r.wireType) r.timestamp (folder_name_suffix s e)) ∈
        (run_messages f (folder_name_suffix s e)
          (read_messages records (some ts) s e)).1 := by
      rw [hrun]
      exact List.mem_flatten.mpr ⟨_, List.mem_map_of_mem _ hfilters, by simp⟩
    rw [process_bag_file, hopen]
    exact List.mem_cons_of_mem _ hgoal

/-- C5 witness: a concrete out-of-window record is excluded, and a concrete
in-window record of the same shape is written. -/
theorem C5_time_window_witness :
    (⟨"/c", "sensor_msgs/Image", ⟨999, 0⟩, .valid 1⟩ : Record) ∉
      read_messages [⟨"/c", "sensor_msgs/Image", ⟨999, 0⟩, .valid 1⟩]
        (some ["/c"]) ⟨0, 0⟩ ⟨10, 0⟩ ∧
    Event.written (computeOutputPath "r.bag" "/c" (derivedDatatype "sensor_msgs/Image")
        ⟨5, 0⟩ (folder_name_suffix ⟨0, 0⟩ ⟨10, 0⟩)) ∈
      (process_bag_file [("r.bag", .ok [⟨"/c", "sensor_msgs/Image", ⟨5, 0⟩, .valid 1⟩])]
        "r.bag" (some ["/c"]) ⟨0, 0⟩ ⟨10, 0⟩).1 :=
  ⟨C5_time_window.1 [⟨"/c", "sensor_msgs/Image", ⟨999, 0⟩, .valid 1⟩] (some ["/c"])
      ⟨0, 0⟩ ⟨10, 0⟩ ⟨"/c", "sensor_msgs/Image", ⟨999, 0⟩, .valid 1⟩
      (by decide) (by decide),
   C5_time_window.2.2 [("r.bag", .ok [⟨"/c", "sensor_msgs/Image", ⟨5, 0⟩, .valid 1⟩])]
     "r.bag" ["/c"] ⟨0, 0⟩ ⟨10, 0⟩ [⟨"/c", "sensor_msgs/Image", ⟨5, 0⟩, .valid 1⟩]
     ⟨"/c", "sensor_msgs/Image", ⟨5, 0⟩, .valid 1⟩
     (by decide) (by decide) (by decide) (by decide) (by decide) (by decide) (by decide)⟩

/-- C8: the batch driver selection keeps exactly the directory entries whose
lowercased extension is the container extension, prefixed with the directory
path; the selected list is sorted ascending in code-point order; the
b.bag/a.bag/c.bag example comes out in order a, b, c; and a run over a valid
window with no failures opens the containers exactly in that selected
order. -/
theorem C8_bag_selection_order :
    (∀ (dirListing : List String) (path_to_files fl : String),
      fl ∈ selectFiles dirListing path_to_files ↔
        ∃ g ∈ dirListing, get_file_extension g = BAG_FILE_EXTENSION ∧
          fl = path_to_files ++ g) ∧
    (∀ (dirListing : List String) (path_to_files : String),
      List.Sorted (fun a b => strLe a b = true) (selectFiles dirListing path_to_files)) ∧
    selectFiles ["b.bag", "a.bag", "c.bag"] "" = ["a.bag", "b.bag", "c.bag"] ∧
    (∀ (fs : Filesystem) (dirListing : List String) (path_to_files : String)
        (topics : Option (List String)) (st et : PyDateTime),
      toEpoch st ≤ toEpoch et →
      (∀ f ∈ selectFiles dirListing path_to_files,
        (process_bag_file fs f topics ⟨toEpoch st, 0⟩ ⟨toEpoch et, 0⟩).2 = none) →
      openedNames (process_bag_files fs dirListing path_to_files topics
          (some st) (some et)).1 =
        selectFiles dirListing path_to_files) := by
  refine ⟨?_, fun dirListing path => sortStrings_sorted _, by decide, ?_⟩
  · intro dirListing path fl
    rw [selectFiles, sortStrings_mem]
    simp only [List.mem_map, List.mem_filter]
    constructor
    · rintro ⟨g, ⟨hg, hext⟩, rfl⟩
      exact ⟨g, hg, by simpa using hext, rfl⟩
    · rintro ⟨g, hg, hext, rfl⟩
      exact ⟨g, ⟨hg, by simpa using hext⟩, rfl⟩
  · intro fs dirListing path topics st et hwin hok
    have hcond : ¬ ((⟨toEpoch et, 0⟩ : RosTime).toNanos <
        (⟨toEpoch st, 0⟩ : RosTime).toNanos) := by
      rw [toNanos_lt_iff]
      omega
    simp only [process_bag_files, Option.getD_some]
    rw [if_neg hcond]
    exact openedNames_processFiles fs topics _ _ _ hok

/-- C8 witness: the selection membership, the example order, and a concrete
no-failure run whose opened files are the selected list. -/
theorem C8_bag_selection_order_witness :
    ("d/a.bag" ∈ selectFiles ["b.bag", "a.bag", "x.txt"] "d/" ↔
      ∃ g ∈ ["b.bag", "a.bag", "x.txt"], get_file_extension g = BAG_FILE_EXTENSION ∧
        "d/a.bag" = "d/" ++ g) ∧
    openedNames (process_bag_files [("a.bag", .ok [])] ["a.bag"] "" none
        (some ⟨1970, 1, 1, 0, 0, 0⟩) (some ⟨1970, 1, 1, 0, 1, 0⟩)).1 =
      selectFiles ["a.bag"] "" :=
  ⟨C8_bag_selection_order.1 ["b.bag", "a.bag", "x.txt"] "d/" "d/a.bag",
   C8_bag_selection_order.2.2.2 [("a.bag", .ok [])] ["a.bag"] "" none
     ⟨1970, 1, 1, 0, 0, 0⟩ ⟨1970, 1, 1, 0, 1, 0⟩ (by decide) (by decide)⟩

/-- C2 counterexample: in a three-file batch whose sorted-middle container is
corrupt, the run ends with an uncaught read error at the corrupt file: the
first file was processed, but the third is never opened — refuting the
claimed log-and-continue isolation of a per-file read failure. -/
theorem C2_cex_abort_on_corrupt :
    runThreeFiles.2 = some (.readError "b.bag") ∧
    Event.fileOpened "a.bag" ∈ runThreeFiles.1 ∧
    Event.fileOpened "c.bag" ∉ runThreeFiles.1 := by decide

/-- C2 amended: a container read/format failure is an uncaught exception that
ends the batch: the files before the corrupt one in sorted order are processed
and contribute their traces, while the corrupt file and every file after it
contribute nothing. -/
theorem C2_amended_read_error_aborts_batch (fs : Filesystem)
    (dirListing : List String) (path_to_files : String)
    (topics : Option (List String)) (st et : PyDateTime)
    (pre : List String) (bad : String) (post : List String)
    (hwin : toEpoch st ≤ toEpoch et)
    (hsel : selectFiles dirListing path_to_files = pre ++ bad :: post)
    (hpre : ∀ g ∈ pre,
      (process_bag_file fs g topics ⟨toEpoch st, 0⟩ ⟨toEpoch et, 0⟩).2 = none)
    (hbad : openBag fs bad = none) :
    process_bag_files fs dirListing path_to_files topics (some st) (some et) =
      ((pre.map (fun g =>
          (process_bag_file fs g topics ⟨toEpoch st, 0⟩ ⟨toEpoch et, 0⟩).1)).flatten,
        some (.readError bad)) := by
  have hcond : ¬ ((⟨toEpoch et, 0⟩ : RosTime).toNanos <
      (⟨toEpoch st, 0⟩ : RosTime).toNanos) := by
    rw [toNanos_lt_iff]
    omega
  simp only [process_bag_files, Option.getD_some]
  rw [if_neg hcond, hsel]
  exact processFiles_abort fs topics _ _ pre bad post hpre hbad

/-- C2 witness: the amended theorem applied to the concrete three-file batch:
only the first file's trace survives and the error names the corrupt file. -/
theorem C2_amended_read_error_aborts_batch_witness :
    process_bag_files fsThreeFiles ["b.bag", "a.bag", "c.bag"] "" (some ["/c"])
        (some ⟨1970, 1, 1, 0, 0, 0⟩) (some ⟨1970, 1, 1, 0, 2, 0⟩) =
      ((["a.bag"].map (fun g =>
          (process_bag_file fsThreeFiles g (some ["/c"])
            ⟨toEpoch ⟨1970, 1, 1, 0, 0, 0⟩, 0⟩ ⟨toEpoch ⟨1970, 1, 1, 0, 2, 0⟩, 0⟩).1)).flatten,
        some (.readError "b.bag")) :=
  C2_amended_read_error_aborts_batch fsThreeFiles ["b.bag", "a.bag", "c.bag"] ""
    (some ["/c"]) ⟨1970, 1, 1, 0, 0, 0⟩ ⟨1970, 1, 1, 0, 2, 0⟩
    ["a.bag"] "b.bag" ["c.bag"] (by decide) (by decide) (by decide) (by decide)

/-- C6 counterexample: in a container holding a well-formed admitted record, a
malformed admitted record, and another well-formed one, the run ends with an
uncaught decode error: the first record is written but the third is neither
decoded nor written — refuting the claim that the remaining records of the
container continue to be processed. -/
theorem C6_cex_decode_error_aborts_container :
    runBadRecord.2 = some .decodeError ∧
    Event.written (computeOutputPath "r.bag" "/c" "Image" ⟨10, 0⟩
      (folder_name_suffix ⟨0, 0⟩ ⟨100, 0⟩)) ∈ runBadRecord.1 ∧
    Event.decodeCall "r.bag" "/c" ⟨12, 0⟩ ∉ runBadRecord.1 ∧
    Event.written (computeOutputPath "r.bag" "/c" "Image" ⟨12, 0⟩
      (folder_name_suffix ⟨0, 0⟩ ⟨100, 0⟩)) ∉ runBadRecord.1 := by decide

/-- C6 amended: a decode error on an admitted record is an uncaught exception
that ends the message loop: the records before it are decoded and written,
the failing record is decoded only, and the records after it in the same
container are neither decoded nor written. -/
theorem C6_amended_decode_error_aborts (file_name sfx : String)
    (pre : List Record) (bad : Record) (post : List Record)
    (hpre : ∀ r ∈ pre,
      (derivedDatatype r.wireType = "Image" ∨
        derivedDatatype r.wireType = "CompressedImage") ∧ r.payload.isValid = true)
    (hbd : derivedDatatype bad.wireType = "Image" ∨
      derivedDatatype bad.wireType = "CompressedImage")
    (hbp : bad.payload.isValid = false) :
    run_messages file_name sfx (pre ++ bad :: post) =
      ((pre.map (fun r =>
          [Event.decodeCall file_name r.channel r.timestamp,
           Event.written (computeOutputPath file_name r.channel
             (derivedDatatype r.wireType) r.timestamp sfx)])).flatten ++
        [Event.decodeCall file_name bad.channel bad.timestamp],
       some .decodeError) := by
  induction pre with
  | nil =>
    rw [List.nil_append, run_messages,
      process_bag_message_decodeErr file_name bad.channel bad.payload
        (derivedDatatype bad.wireType) bad.timestamp sfx hbd hbp]
    simp
  | cons r rs ih =>
    have hr := hpre r (List.mem_cons_self r rs)
    have hrs := fun q hq => hpre q (List.mem_cons_of_mem r hq)
    rw [List.cons_append, run_messages,
      process_bag_message_ok file_name r.channel r.payload
        (derivedDatatype r.wireType) r.timestamp sfx hr.1 hr.2]
    simp [ih hrs, List.flatten_cons, List.append_assoc]

/-- C6 witness: the amended theorem applied to the concrete container of
bagWithBadRecord: the first record's two events survive, the malformed record
is decoded only, and the record after it contributes nothing. -/
theorem C6_amended_decode_error_aborts_witness :
    run_messages "r.bag" "w"
        [⟨"/c", "sensor_msgs/Image", ⟨10, 0⟩, .valid 1⟩,
         ⟨"/c", "sensor_msgs/Image", ⟨11, 0⟩, .malformed 2⟩,
         ⟨"/c", "sensor_msgs/Image", ⟨12, 0⟩, .valid 3⟩] =
      (([(⟨"/c", "sensor_msgs/Image", ⟨10, 0⟩, .valid 1⟩ : Record)].map (fun r =>
          [Event.decodeCall "r.bag" r.channel r.timestamp,
           Event.written (computeOutputPath "r.bag" r.channel
             (derivedDatatype r.wireType) r.timestamp "w")])).flatten ++
        [Event.decodeCall "r.bag" "/c" ⟨11, 0⟩],
       some .decodeError) :=
  C6_amended_decode_error_aborts "r.bag" "w"
    [⟨"/c", "sensor_msgs/Image", ⟨10, 0⟩, .valid 1⟩]
    ⟨"/c", "sensor_msgs/Image", ⟨11, 0⟩, .malformed 2⟩
    [⟨"/c", "sensor_msgs/Image", ⟨12, 0⟩, .valid 3⟩]
    (by decide) (by decide) (by decide)

end RosbagPipeline
